import Mathlib

/-!
Shallow embedding of `sqlalchemy_firebird/fdb.py`, the fdb dialect adapter
for Firebird, together with the SQLAlchemy helpers it calls
(`URL.translate_connect_args` and `util.coerce_kw_type`, modelled from the
SQLAlchemy library, which is an external dependency of this repository).
-/

/-- A value stored in the keyword-options dictionary: the code only ever
puts Python strings or ints there. -/
inductive OptValue where
  | str (s : String)
  | int (i : Int)
deriving DecidableEq

/-- A Python dict with string keys, as an insertion-ordered association
list.  Every dict built by the embedded code keeps its keys unique, as a
real Python dict does. -/
abbrev Dict := List (String × OptValue)

/-- Dict lookup, `d.get(k)` / `d[k]`. -/
def dget : Dict → String → Option OptValue
  | [], _ => none
  | (k', v) :: rest, k => if k' = k then some v else dget rest k

/-- Dict assignment `d[k] = v`: replace in place when the key is present,
append otherwise. -/
def dset : Dict → String → OptValue → Dict
  | [], k, v => [(k, v)]
  | (k', v') :: rest, k, v =>
    if k' = k then (k, v) :: rest else (k', v') :: dset rest k v

/-- Dict deletion `del d[k]`.  The dicts reaching it have unique keys, so
removing every occurrence of the key coincides with removing its single
entry. -/
def ddel : Dict → String → Dict
  | [], _ => []
  | (k', v') :: rest, k =>
    if k' = k then ddel rest k else (k', v') :: ddel rest k

/-- `d.update(q)` where `q` is the URL query mapping (string keys to string
values). -/
def dupdate (d : Dict) (q : List (String × String)) : Dict :=
  q.foldl (fun acc kv => dset acc kv.1 (.str kv.2)) d

/-- The parsed-URL fields read by `create_connect_args`.  `none` models an
absent (None) field; the query mapping carries string keys and values. -/
structure URL where
  host : Option String
  database : Option String
  username : Option String
  password : Option String
  port : Option Nat
  query : List (String × String)

/-- SQLAlchemy `URL.translate_connect_args(username="user")`: copy the
attributes host, database, username, password, port, in that order, into a
fresh dict whenever present and truthy, storing `username` under the key
`"user"`. -/
def URL.translate_connect_args (url : URL) : Dict :=
  let d : Dict := []
  let d := match url.host with
    | some h => if h != "" then dset d "host" (.str h) else d
    | none => d
  let d := match url.database with
    | some db => if db != "" then dset d "database" (.str db) else d
    | none => d
  let d := match url.username with
    | some u => if u != "" then dset d "user" (.str u) else d
    | none => d
  let d := match url.password with
    | some pw => if pw != "" then dset d "password" (.str pw) else d
    | none => d
  match url.port with
  | some p => if p != 0 then dset d "port" (.int p) else d
  | none => d

/-- Python truthiness of an options value: nonempty string, nonzero int. -/
def truthyVal : OptValue → Bool
  | .str s => s != ""
  | .int i => i != 0

/-- Rendering of an options value by the `%s` format directive. -/
def formatVal : OptValue → String
  | .str s => s
  | .int i => toString i

/-- The exceptions the embedded code can raise while building the connect
arguments: `opts["host"]` on a missing key, `int(value)` on a non-numeric
string. -/
inductive PyError where
  | keyError (k : String)
  | valueError
deriving DecidableEq

/-- Value of a nonempty, all-digit character list; `none` otherwise. -/
def digitsVal (cs : List Char) : Option Nat :=
  if cs ≠ [] ∧ cs.all (fun c => c.isDigit) then
    some (cs.foldl (fun a c => a * 10 + (c.toNat - 48)) 0)
  else none

/-- Strip leading and trailing whitespace from a character list. -/
def trimWs (cs : List Char) : List Char :=
  ((cs.dropWhile Char.isWhitespace).reverse.dropWhile Char.isWhitespace).reverse

/-- Python `int(s)` on a string: strip surrounding whitespace, allow one
leading sign, then require a nonempty digit run; `none` models the
ValueError raise.  (Digit-grouping underscores and non-ASCII digits are
not modelled.) -/
def pyInt? (s : String) : Option Int :=
  match trimWs s.toList with
  | '-' :: cs => (digitsVal cs).map (fun n => -(n : Int))
  | '+' :: cs => (digitsVal cs).map (fun n => (n : Int))
  | cs => (digitsVal cs).map (fun n => (n : Int))

/-- SQLAlchemy `util.coerce_kw_type(kw, key, int)`: when the key is present
and its value is not already an int, replace the value by `int(value)`,
raising a ValueError when the string is not numeric. -/
def coerce_kw_type_int (d : Dict) (key : String) : Except PyError Dict :=
  match dget d key with
  | none => .ok d
  | some (.int _) => .ok d
  | some (.str s) =>
    match pyInt? s with
    | some i => .ok (dset d key (.int i))
    | none => .error PyError.valueError

/-- The options dict of `FBDialect_fdb.create_connect_args` just before the
`coerce_kw_type` call: translate the URL fields, fold a truthy port into
`host` as `"%s/%s" % (opts["host"], opts["port"])` and delete `port`, then
merge the query parameters over the result. -/
def connect_opts_pre (url : URL) : Except PyError Dict :=
  match dget url.translate_connect_args "port" with
  | some pv =>
    if truthyVal pv then
      match dget url.translate_connect_args "host" with
      | some hv =>
        .ok (dupdate
          (ddel
            (dset url.translate_connect_args "host"
              (.str (formatVal hv ++ "/" ++ formatVal pv)))
            "port")
          url.query)
      | none => .error (PyError.keyError "host")
    else .ok (dupdate url.translate_connect_args url.query)
  | none => .ok (dupdate url.translate_connect_args url.query)

/-- `FBDialect_fdb.create_connect_args`: build the options dict, coerce
`type_conv` to an int, and return `([], opts)`. -/
def create_connect_args (url : URL) : Except PyError (List OptValue × Dict) :=
  match connect_opts_pre url with
  | .error e => .error e
  | .ok opts =>
    match coerce_kw_type_int opts "type_conv" with
    | .error e => .error e
    | .ok opts => .ok ([], opts)

/-- `isc_info_firebird_version = 103 if not self.is_interbase else 12`. -/
def isc_info_firebird_version (is_interbase : Bool) : Nat :=
  if !is_interbase then 103 else 12

/-- The fallback info-code, `12 if isc_info_firebird_version == 103 else
103`. -/
def altVersionCode (code : Nat) : Nat :=
  if code = 103 then 12 else 103

/-- An exception raised by `raise ee from e`: the raised error plus its
chained cause. -/
structure ChainedError (E : Type) where
  err : E
  cause : Option E

/-- `FBDialect_fdb._get_server_version_info`, with the borrowed connection
abstracted as its `db_info` method (an info-code to version-or-exception
map) and the inherited `_parse_version_info` (owned by the base dialect,
outside this repository) abstracted as `parse`.  Besides the result it
returns the list of info-codes passed to `db_info`, in call order. -/
def get_server_version_info {E V W : Type} (is_interbase : Bool)
    (parse : V → W) (db_info : Nat → Except E V) :
    Except (ChainedError E) W × List Nat :=
  let code := isc_info_firebird_version is_interbase
  match db_info code with
  | .ok version => (.ok (parse version), [code])
  | .error e =>
    match db_info (altVersionCode code) with
    | .ok version => (.ok (parse version), [code, altVersionCode code])
    | .error ee => (.error ⟨ee, some e⟩, [code, altVersionCode code])

/-- A non-null value reaching the `_FBBlob` result processor, abstracted by
what `bytes(value)` does to it: produce a byte sequence, or raise a
TypeError. -/
structure BlobHandle where
  toBytes : Except Unit (List Nat)

/-- The `process` closure returned by `_FBBlob.result_processor`: pass None
through, realize anything else with `bytes(value)`, and on a TypeError
close the handle and return None.  The second component counts the calls
made to the `close` method of the handle. -/
def blob_process : Option BlobHandle → Option (List Nat) × Nat
  | none => (none, 0)
  | some h =>
    match h.toBytes with
    | .ok data => (some data, 0)
    | .error _ => (none, 1)

/-- An output of `blob_process`, viewed again as a driver value: None stays
None, and a plain bytes object is a value that `bytes(...)` realizes to
itself. -/
def blob_output_as_value : Option (List Nat) → Option BlobHandle
  | none => none
  | some data => some ⟨.ok data⟩

/-- The arguments `FBDialect_fdb.__init__` forwards to the base dialect
constructor `FBDialect_kinterbasdb.__init__` (code outside the
scope): the two named flags plus the remaining keyword arguments. -/
structure KinterbasdbInitArgs where
  enable_rowcount : Bool
  retaining : Bool
  kwargs : List (String × OptValue)
deriving DecidableEq

/-- The observable effect of `FBDialect_fdb.__init__`: the `is_interbase`
flag stored on the instance, and the arguments handed to the base
constructor. -/
structure FdbDialect where
  is_interbase : Bool
  superArgs : KinterbasdbInitArgs
deriving DecidableEq

/-- `FBDialect_fdb.__init__(enable_rowcount=True, retaining=False,
is_interbase=False, **kwargs)`: store `is_interbase`, forward the rest. -/
def FdbDialect.init (enable_rowcount : Bool := true)
    (retaining : Bool := false) (is_interbase : Bool := false)
    (kwargs : List (String × OptValue) := []) : FdbDialect :=
  ⟨is_interbase, ⟨enable_rowcount, retaining, kwargs⟩⟩

/-- A URL with host, port, database and credentials, and an empty query. -/
def urlPlain : URL :=
  ⟨some "localhost", some "employee", some "sysdba", some "masterkey",
    some 3050, []⟩

/-- A URL with a host but neither port nor query parameters. -/
def urlNoPort : URL := ⟨some "myhost", some "db", none, none, none, []⟩

/-- A URL with host and port whose query itself carries a `port`
parameter. -/
def urlQueryPort : URL :=
  ⟨some "h", none, none, none, some 3050, [("port", "9999")]⟩

/-- A URL with a username whose query itself carries a `username`
parameter. -/
def urlQueryUsername : URL :=
  ⟨some "h", none, some "alice", none, none, [("username", "bob")]⟩

/-- A URL with no port whose query itself carries a `host` parameter. -/
def urlQueryHost : URL := ⟨some "h", none, none, none, none, [("host", "x")]⟩

/-- A URL with host and port whose query carries both a `port` and a
`username` parameter. -/
def urlQueryBoth : URL :=
  ⟨some "h", none, none, none, some 3050, [("port", "9999"), ("username", "bob")]⟩

/-- A URL whose query sets `type_conv` to the numeric string `"2"`. -/
def urlTypeConvNum : URL :=
  ⟨some "h", none, none, none, some 3050, [("type_conv", "2")]⟩

/-- A URL whose query sets `type_conv` to a non-numeric string. -/
def urlTypeConvBad : URL :=
  ⟨some "h", none, none, none, none, [("type_conv", "abc")]⟩

/-- A connection whose `db_info` answers the Firebird info-code 103 and
rejects every other code. -/
def dbInfoPrimaryOk : Nat → Except String String :=
  fun code =>
    if code = 103 then .ok "LI-V6.3.3.12981 Firebird 2.0"
    else .error "unsupported"

/-- A connection whose `db_info` only answers the Interbase info-code 12. -/
def dbInfoFallbackOk : Nat → Except String String :=
  fun code => if code = 12 then .ok "WI-V6.3.3" else .error "unsupported"

/-- A connection whose `db_info` raises on every info-code, reporting the
code it was given. -/
def dbInfoDown : Nat → Except String String :=
  fun code => .error (toString code)

theorem dget_dset (d : Dict) (k' k : String) (v : OptValue) :
    dget (dset d k' v) k = if k' = k then some v else dget d k := by
  by_cases hk : k' = k
  · subst hk
    rw [if_pos rfl]
    induction d with
    | nil => simp [dset, dget]
    | cons hd tl ih =>
      obtain ⟨k0, v0⟩ := hd
      by_cases h0 : k0 = k' <;> simp [dset, dget, h0, ih]
  · rw [if_neg hk]
    induction d with
    | nil => simp [dset, dget, hk]
    | cons hd tl ih =>
      obtain ⟨k0, v0⟩ := hd
      by_cases h0 : k0 = k'
      · subst h0; simp [dset, dget, hk]
      · simp [dset, dget, h0, ih, hk]

theorem dget_dset_self (d : Dict) (k : String) (v : OptValue) :
    dget (dset d k v) k = some v := by simp [dget_dset]

theorem dget_dset_ne (d : Dict) (k' k : String) (v : OptValue) (h : k' ≠ k) :
    dget (dset d k' v) k = dget d k := by simp [dget_dset, h]

theorem dget_ddel (d : Dict) (k' k : String) :
    dget (ddel d k') k = if k' = k then none else dget d k := by
  by_cases hk : k' = k
  · subst hk
    rw [if_pos rfl]
    induction d with
    | nil => simp [ddel, dget]
    | cons hd tl ih =>
      obtain ⟨k0, v0⟩ := hd
      by_cases h0 : k0 = k' <;> simp [ddel, dget, h0, ih]
  · rw [if_neg hk]
    induction d with
    | nil => simp [ddel, dget]
    | cons hd tl ih =>
      obtain ⟨k0, v0⟩ := hd
      by_cases h0 : k0 = k'
      · subst h0; simp [ddel, dget, hk, ih]
      · simp [ddel, dget, h0, ih]

theorem dget_ddel_self (d : Dict) (k : String) :
    dget (ddel d k) k = none := by simp [dget_ddel]

theorem dget_ddel_ne (d : Dict) (k' k : String) (h : k' ≠ k) :
    dget (ddel d k') k = dget d k := by simp [dget_ddel, h]

theorem dget_dupdate_not_mem (q : List (String × String)) (d : Dict) (k : String)
    (h : k ∉ q.map Prod.fst) : dget (dupdate d q) k = dget d k := by
  induction q generalizing d with
  | nil => rfl
  | cons hd tl ih =>
    obtain ⟨k0, v0⟩ := hd
    simp only [List.map_cons, List.mem_cons, not_or] at h
    have h1 : dupdate d ((k0, v0) :: tl) = dupdate (dset d k0 (.str v0)) tl := rfl
    rw [h1, ih _ h.2, dget_dset_ne _ _ _ _ (fun hh => h.1 hh.symm)]

theorem dget_dupdate_mem (q : List (String × String)) (d : Dict) (k v : String)
    (hnd : (q.map Prod.fst).Nodup) (hmem : (k, v) ∈ q) :
    dget (dupdate d q) k = some (.str v) := by
  induction q generalizing d with
  | nil => cases hmem
  | cons hd tl ih =>
    obtain ⟨k0, v0⟩ := hd
    simp only [List.map_cons, List.nodup_cons] at hnd
    have h1 : dupdate d ((k0, v0) :: tl) = dupdate (dset d k0 (.str v0)) tl := rfl
    rcases List.mem_cons.mp hmem with heq | htl
    · have hk : k = k0 := congrArg Prod.fst heq
      have hv : v = v0 := congrArg Prod.snd heq
      subst hk; subst hv
      rw [h1, dget_dupdate_not_mem _ _ _ hnd.1, dget_dset_self]
    · rw [h1]; exact ih _ hnd.2 htl

theorem dget_translate_host (url : URL) :
    dget url.translate_connect_args "host" =
      (match url.host with
       | some h => if h != "" then some (.str h) else none
       | none => none) := by
  obtain ⟨ho, db, us, pw, po, q⟩ := url
  cases ho <;> cases db <;> cases us <;> cases pw <;> cases po <;>
    simp only [URL.translate_connect_args] <;> (try split_ifs) <;>
    simp_all [dget_dset, dget]

theorem dget_translate_port (url : URL) :
    dget url.translate_connect_args "port" =
      (match url.port with
       | some p => if p != 0 then some (.int p) else none
       | none => none) := by
  obtain ⟨ho, db, us, pw, po, q⟩ := url
  cases ho <;> cases db <;> cases us <;> cases pw <;> cases po <;>
    simp only [URL.translate_connect_args] <;> (try split_ifs) <;>
    simp_all [dget_dset, dget]

theorem dget_translate_user (url : URL) :
    dget url.translate_connect_args "user" =
      (match url.username with
       | some u => if u != "" then some (.str u) else none
       | none => none) := by
  obtain ⟨ho, db, us, pw, po, q⟩ := url
  cases ho <;> cases db <;> cases us <;> cases pw <;> cases po <;>
    simp only [URL.translate_connect_args] <;> (try split_ifs) <;>
    simp_all [dget_dset, dget]

theorem dget_translate_username (url : URL) :
    dget url.translate_connect_args "username" = none := by
  obtain ⟨ho, db, us, pw, po, q⟩ := url
  cases ho <;> cases db <;> cases us <;> cases pw <;> cases po <;>
    simp only [URL.translate_connect_args] <;> (try split_ifs) <;>
    simp_all [dget_dset, dget]

theorem coerce_kw_type_int_ok_preserve (d d2 : Dict) (key k : String)
    (hok : coerce_kw_type_int d key = .ok d2) (hk : k ≠ key) :
    dget d2 k = dget d k := by
  unfold coerce_kw_type_int at hok
  split at hok
  · cases hok; rfl
  · cases hok; rfl
  · split at hok
    · cases hok; exact dget_dset_ne _ _ _ _ (fun hh => hk hh.symm)
    · cases hok

theorem create_connect_args_ok_elim (url : URL) (args : List OptValue)
    (opts : Dict) (hok : create_connect_args url = .ok (args, opts)) :
    args = [] ∧ ∃ d, connect_opts_pre url = .ok d ∧
      coerce_kw_type_int d "type_conv" = .ok opts := by
  unfold create_connect_args at hok
  split at hok
  · cases hok
  next d hpre =>
    split at hok
    · cases hok
    next d2 hco =>
      cases hok
      exact ⟨rfl, d, hpre, hco⟩

theorem connect_opts_pre_query (url : URL) (d : Dict) (k v : String)
    (hok : connect_opts_pre url = .ok d)
    (hnd : (url.query.map Prod.fst).Nodup) (hmem : (k, v) ∈ url.query) :
    dget d k = some (.str v) := by
  unfold connect_opts_pre at hok
  split at hok
  · split at hok
    · split at hok
      · cases hok; exact dget_dupdate_mem _ _ _ _ hnd hmem
      · cases hok
    · cases hok; exact dget_dupdate_mem _ _ _ _ hnd hmem
  · cases hok; exact dget_dupdate_mem _ _ _ _ hnd hmem

theorem connect_opts_pre_preserve (url : URL) (d : Dict) (k : String)
    (hok : connect_opts_pre url = .ok d)
    (hh : k ≠ "host") (hp : k ≠ "port") (hq : k ∉ url.query.map Prod.fst) :
    dget d k = dget url.translate_connect_args k := by
  unfold connect_opts_pre at hok
  split at hok
  · split at hok
    · split at hok
      · cases hok
        rw [dget_dupdate_not_mem _ _ _ hq,
          dget_ddel_ne _ _ _ (fun h2 => hp h2.symm),
          dget_dset_ne _ _ _ _ (fun h2 => hh h2.symm)]
      · cases hok
    · cases hok; exact dget_dupdate_not_mem _ _ _ hq
  · cases hok; exact dget_dupdate_not_mem _ _ _ hq

theorem toString_natCast_int (p : Nat) : toString ((p : Int)) = toString p := rfl

theorem connect_opts_pre_fold (url : URL) (hst : String) (p : Nat)
    (hho : dget url.translate_connect_args "host" = some (.str hst))
    (hpo : dget url.translate_connect_args "port" = some (.int (p : Int)))
    (hpnz : p ≠ 0) :
    connect_opts_pre url =
      .ok (dupdate (ddel (dset url.translate_connect_args "host"
        (.str (hst ++ "/" ++ toString p))) "port") url.query) := by
  have ht : truthyVal (.int (p : Int)) = true := by
    simp [truthyVal, hpnz]
  unfold connect_opts_pre
  simp only [hpo, ht, if_true, hho, formatVal, toString_natCast_int]

theorem connect_opts_pre_no_host (url : URL) (p : Nat)
    (hho : dget url.translate_connect_args "host" = none)
    (hpo : dget url.translate_connect_args "port" = some (.int (p : Int)))
    (hpnz : p ≠ 0) :
    connect_opts_pre url = .error (PyError.keyError "host") := by
  have ht : truthyVal (.int (p : Int)) = true := by
    simp [truthyVal, hpnz]
  unfold connect_opts_pre
  simp only [hpo, ht, if_true, hho]

theorem connect_opts_pre_no_port (url : URL)
    (hpo : dget url.translate_connect_args "port" = none) :
    connect_opts_pre url = .ok (dupdate url.translate_connect_args url.query) := by
  unfold connect_opts_pre
  simp only [hpo]

/-- Claim C1 (counterexample): for the URL `urlQueryPort`, which has host
`"h"` and port `3050` but also a `port` query parameter, the returned
options DO contain a separate `port` key, so the claim as stated fails. -/
theorem create_connect_args_query_port_reappears :
    urlQueryPort.host = some "h" ∧ urlQueryPort.port = some 3050 ∧
    create_connect_args urlQueryPort =
      .ok ([], [("host", OptValue.str "h/3050"), ("port", OptValue.str "9999")]) ∧
    dget [("host", OptValue.str "h/3050"), ("port", OptValue.str "9999")] "port" =
      some (.str "9999") :=
  ⟨rfl, rfl, rfl, rfl⟩

/-- Claim C1 (amended): for every URL with a host, a nonzero port, and a
query mapping carrying neither a `host` nor a `port` parameter, the options
returned by `create_connect_args` hold `host` as `"<host>/<port>"` and no
separate `port` key. -/
theorem create_connect_args_host_port_fold (url : URL) (h : String) (p : Nat)
    (args : List OptValue) (opts : Dict)
    (hh : url.host = some h) (hp : url.port = some p) (hpnz : p ≠ 0)
    (hqh : "host" ∉ url.query.map Prod.fst)
    (hqp : "port" ∉ url.query.map Prod.fst)
    (hok : create_connect_args url = .ok (args, opts)) :
    dget opts "host" = some (.str (h ++ "/" ++ toString p)) ∧
    dget opts "port" = none := by
  obtain ⟨-, d, hpre, hco⟩ := create_connect_args_ok_elim url args opts hok
  have hpo : dget url.translate_connect_args "port" = some (.int (p : Int)) := by
    rw [dget_translate_port, hp]
    simp [hpnz]
  by_cases hhe : h = ""
  · exfalso
    have hho : dget url.translate_connect_args "host" = none := by
      rw [dget_translate_host, hh]
      simp [hhe]
    rw [connect_opts_pre_no_host url p hho hpo hpnz] at hpre
    cases hpre
  · have hho : dget url.translate_connect_args "host" = some (.str h) := by
      rw [dget_translate_host, hh]
      simp [hhe]
    rw [connect_opts_pre_fold url h p hho hpo hpnz] at hpre
    cases hpre
    rw [coerce_kw_type_int_ok_preserve _ _ "type_conv" "host" hco (by decide),
      coerce_kw_type_int_ok_preserve _ _ "type_conv" "port" hco (by decide)]
    constructor
    · rw [dget_dupdate_not_mem _ _ _ hqh,
        dget_ddel_ne _ _ _ (by decide), dget_dset_self]
    · rw [dget_dupdate_not_mem _ _ _ hqp, dget_ddel_self]

/-- Claim C1 (witness): the amended statement at the concrete URL
`urlPlain`. -/
theorem create_connect_args_host_port_fold_witness :
    create_connect_args urlPlain =
      .ok ([], [("host", OptValue.str "localhost/3050"),
        ("database", OptValue.str "employee"),
        ("user", OptValue.str "sysdba"),
        ("password", OptValue.str "masterkey")]) ∧
    dget [("host", OptValue.str "localhost/3050"),
        ("database", OptValue.str "employee"),
        ("user", OptValue.str "sysdba"),
        ("password", OptValue.str "masterkey")] "host" =
      some (.str ("localhost" ++ "/" ++ toString 3050)) ∧
    dget [("host", OptValue.str "localhost/3050"),
        ("database", OptValue.str "employee"),
        ("user", OptValue.str "sysdba"),
        ("password", OptValue.str "masterkey")] "port" = none :=
  ⟨rfl,
   (create_connect_args_host_port_fold urlPlain "localhost" 3050 [] _ rfl rfl
     (by decide) (by decide) (by decide) rfl).1,
   (create_connect_args_host_port_fold urlPlain "localhost" 3050 [] _ rfl rfl
     (by decide) (by decide) (by decide) rfl).2⟩

/-- Claim C2 (counterexample): for the URL `urlQueryUsername`, whose
username is `"alice"` but whose query carries a `username` parameter, the
returned options DO contain a `username` key, so the claim as stated
fails. -/
theorem create_connect_args_query_username_reappears :
    urlQueryUsername.username = some "alice" ∧
    create_connect_args urlQueryUsername =
      .ok ([], [("host", OptValue.str "h"), ("user", OptValue.str "alice"),
        ("username", OptValue.str "bob")]) ∧
    dget [("host", OptValue.str "h"), ("user", OptValue.str "alice"),
        ("username", OptValue.str "bob")] "username" = some (.str "bob") :=
  ⟨rfl, rfl, rfl⟩

/-- Claim C2 (amended): for every URL with a nonempty username and a query
mapping carrying neither a `user` nor a `username` parameter, the options
returned by `create_connect_args` hold the username under `user` and no
`username` key. -/
theorem create_connect_args_username_to_user (url : URL) (u : String)
    (args : List OptValue) (opts : Dict)
    (hu : url.username = some u) (hne : u ≠ "")
    (hq1 : "user" ∉ url.query.map Prod.fst)
    (hq2 : "username" ∉ url.query.map Prod.fst)
    (hok : create_connect_args url = .ok (args, opts)) :
    dget opts "user" = some (.str u) ∧ dget opts "username" = none := by
  obtain ⟨-, d, hpre, hco⟩ := create_connect_args_ok_elim url args opts hok
  constructor
  · rw [coerce_kw_type_int_ok_preserve _ _ "type_conv" "user" hco (by decide),
      connect_opts_pre_preserve url d "user" hpre (by decide) (by decide) hq1,
      dget_translate_user, hu]
    simp [hne]
  · rw [coerce_kw_type_int_ok_preserve _ _ "type_conv" "username" hco (by decide),
      connect_opts_pre_preserve url d "username" hpre (by decide) (by decide) hq2,
      dget_translate_username]

/-- Claim C2 (witness): the amended statement at the concrete URL
`urlPlain`, whose username is `"sysdba"`. -/
theorem create_connect_args_username_to_user_witness :
    create_connect_args urlPlain =
      .ok ([], [("host", OptValue.str "localhost/3050"),
        ("database", OptValue.str "employee"),
        ("user", OptValue.str "sysdba"),
        ("password", OptValue.str "masterkey")]) ∧
    dget [("host", OptValue.str "localhost/3050"),
        ("database", OptValue.str "employee"),
        ("user", OptValue.str "sysdba"),
        ("password", OptValue.str "masterkey")] "user" =
      some (.str "sysdba") ∧
    dget [("host", OptValue.str "localhost/3050"),
        ("database", OptValue.str "employee"),
        ("user", OptValue.str "sysdba"),
        ("password", OptValue.str "masterkey")] "username" = none :=
  ⟨rfl,
   (create_connect_args_username_to_user urlPlain "sysdba" [] _ rfl
     (by decide) (by decide) (by decide) rfl).1,
   (create_connect_args_username_to_user urlPlain "sysdba" [] _ rfl
     (by decide) (by decide) (by decide) rfl).2⟩

/-- Claim C6 (counterexample): for the URL `urlQueryHost`, which has host
`"h"` and no port but a `host` query parameter, the returned options carry
`host` as `"x"`, not the host of the URL, so the claim as stated fails. -/
theorem create_connect_args_query_host_overrides :
    urlQueryHost.host = some "h" ∧ urlQueryHost.port = none ∧
    create_connect_args urlQueryHost =
      .ok ([], [("host", OptValue.str "x")]) ∧
    dget [("host", OptValue.str "x")] "host" ≠ some (.str "h") :=
  ⟨rfl, rfl, rfl, by decide⟩

/-- Claim C6 (amended): for every URL with a nonempty host, no port, and a
query mapping without a `host` parameter, the options returned by
`create_connect_args` carry the host of the URL unchanged. -/
theorem create_connect_args_no_port_host_unchanged (url : URL) (h : String)
    (args : List OptValue) (opts : Dict)
    (hh : url.host = some h) (hne : h ≠ "") (hp : url.port = none)
    (hqh : "host" ∉ url.query.map Prod.fst)
    (hok : create_connect_args url = .ok (args, opts)) :
    dget opts "host" = some (.str h) := by
  obtain ⟨-, d, hpre, hco⟩ := create_connect_args_ok_elim url args opts hok
  have hpo : dget url.translate_connect_args "port" = none := by
    rw [dget_translate_port, hp]
  rw [connect_opts_pre_no_port url hpo] at hpre
  cases hpre
  rw [coerce_kw_type_int_ok_preserve _ _ "type_conv" "host" hco (by decide),
    dget_dupdate_not_mem _ _ _ hqh, dget_translate_host, hh]
  simp [hne]

/-- Claim C6 (witness): the amended statement at the concrete URL
`urlNoPort`. -/
theorem create_connect_args_no_port_host_unchanged_witness :
    create_connect_args urlNoPort =
      .ok ([], [("host", OptValue.str "myhost"), ("database", OptValue.str "db")]) ∧
    dget [("host", OptValue.str "myhost"), ("database", OptValue.str "db")] "host" =
      some (.str "myhost") :=
  ⟨rfl,
   create_connect_args_no_port_host_unchanged urlNoPort "myhost" [] _ rfl
     (by decide) rfl (by decide) rfl⟩

/-- Claim C5: when the options built from a URL hold `type_conv` as a
string, a numeric-coercible value is replaced by the corresponding
integer, and a non-numeric value makes `create_connect_args` raise the
conversion error instead of returning. -/
theorem create_connect_args_type_conv (url : URL) (d : Dict) (s : String)
    (hpre : connect_opts_pre url = .ok d)
    (hval : dget d "type_conv" = some (.str s)) :
    (∀ i, pyInt? s = some i →
      create_connect_args url = .ok ([], dset d "type_conv" (.int i))) ∧
    (pyInt? s = none →
      create_connect_args url = .error PyError.valueError) := by
  constructor
  · intro i hi
    unfold create_connect_args coerce_kw_type_int
    simp only [hpre, hval, hi]
  · intro hn
    unfold create_connect_args coerce_kw_type_int
    simp only [hpre, hval, hn]

/-- Claim C5 (witness): `type_conv="2"` becomes the integer 2, and
`type_conv="abc"` raises. -/
theorem create_connect_args_type_conv_witness :
    pyInt? "2" = some 2 ∧
    connect_opts_pre urlTypeConvNum =
      .ok [("host", OptValue.str "h/3050"), ("type_conv", OptValue.str "2")] ∧
    create_connect_args urlTypeConvNum =
      .ok ([], [("host", OptValue.str "h/3050"), ("type_conv", OptValue.int 2)]) ∧
    pyInt? "abc" = none ∧
    create_connect_args urlTypeConvBad = .error PyError.valueError :=
  ⟨rfl, rfl,
   (create_connect_args_type_conv urlTypeConvNum _ "2" rfl rfl).1 2 rfl,
   rfl,
   (create_connect_args_type_conv urlTypeConvBad _ "abc" rfl rfl).2 rfl⟩

/-- Claim C7: whenever `create_connect_args` returns, the positional
argument list in the returned pair is empty. -/
theorem create_connect_args_positional_empty (url : URL) (args : List OptValue)
    (opts : Dict) (hok : create_connect_args url = .ok (args, opts)) :
    args = [] :=
  (create_connect_args_ok_elim url args opts hok).1

/-- Claim C7 (witness): the statement at the concrete URL `urlPlain`. -/
theorem create_connect_args_positional_empty_witness :
    create_connect_args urlPlain =
      .ok ([], [("host", OptValue.str "localhost/3050"),
        ("database", OptValue.str "employee"),
        ("user", OptValue.str "sysdba"),
        ("password", OptValue.str "masterkey")]) ∧
    ([] : List OptValue) = [] :=
  ⟨rfl, create_connect_args_positional_empty urlPlain [] _ rfl⟩

/-- Claim C9: the query parameters are merged after the host/port folding
and the username rename, so query entries named `port` or `username`
appear as such in the returned options, with the value given in the query. -/
theorem create_connect_args_query_overrides (url : URL) (args : List OptValue)
    (opts : Dict) (hnd : (url.query.map Prod.fst).Nodup)
    (hok : create_connect_args url = .ok (args, opts)) :
    (∀ v, ("port", v) ∈ url.query → dget opts "port" = some (.str v)) ∧
    (∀ v, ("username", v) ∈ url.query → dget opts "username" = some (.str v)) := by
  obtain ⟨-, d, hpre, hco⟩ := create_connect_args_ok_elim url args opts hok
  refine ⟨fun v hv => ?_, fun v hv => ?_⟩
  · rw [coerce_kw_type_int_ok_preserve _ _ "type_conv" "port" hco (by decide)]
    exact connect_opts_pre_query url d "port" v hpre hnd hv
  · rw [coerce_kw_type_int_ok_preserve _ _ "type_conv" "username" hco (by decide)]
    exact connect_opts_pre_query url d "username" v hpre hnd hv

/-- Claim C9 (witness): the statement at the concrete URL `urlQueryBoth`,
whose query carries both `port` and `username`. -/
theorem create_connect_args_query_overrides_witness :
    create_connect_args urlQueryBoth =
      .ok ([], [("host", OptValue.str "h/3050"), ("port", OptValue.str "9999"),
        ("username", OptValue.str "bob")]) ∧
    dget [("host", OptValue.str "h/3050"), ("port", OptValue.str "9999"),
        ("username", OptValue.str "bob")] "port" = some (.str "9999") ∧
    dget [("host", OptValue.str "h/3050"), ("port", OptValue.str "9999"),
        ("username", OptValue.str "bob")] "username" = some (.str "bob") :=
  ⟨rfl,
   (create_connect_args_query_overrides urlQueryBoth [] _ (by decide) rfl).1
     "9999" (by decide),
   (create_connect_args_query_overrides urlQueryBoth [] _ (by decide) rfl).2
     "bob" (by decide)⟩

/-- Claim C3: `_get_server_version_info` probes `db_info` with 103 when
`is_interbase` is false and 12 when it is true; a successful primary probe
is used directly with no second call; on a primary failure the answer for
the alternate code is used; and when both fail the second exception is raised
with the first as its chained cause. -/
theorem get_server_version_info_probe {E V W : Type} (ib : Bool)
    (parse : V → W) (db_info : Nat → Except E V) :
    (isc_info_firebird_version false = 103 ∧
      isc_info_firebird_version true = 12) ∧
    (∀ v, db_info (isc_info_firebird_version ib) = .ok v →
      get_server_version_info ib parse db_info =
        (.ok (parse v), [isc_info_firebird_version ib])) ∧
    (∀ e v, db_info (isc_info_firebird_version ib) = .error e →
      db_info (altVersionCode (isc_info_firebird_version ib)) = .ok v →
      get_server_version_info ib parse db_info =
        (.ok (parse v), [isc_info_firebird_version ib,
          altVersionCode (isc_info_firebird_version ib)])) ∧
    (∀ e ee, db_info (isc_info_firebird_version ib) = .error e →
      db_info (altVersionCode (isc_info_firebird_version ib)) = .error ee →
      get_server_version_info ib parse db_info =
        (.error ⟨ee, some e⟩, [isc_info_firebird_version ib,
          altVersionCode (isc_info_firebird_version ib)])) := by
  refine ⟨⟨rfl, rfl⟩, fun v hv => ?_, fun e v he hv => ?_, fun e ee he hee => ?_⟩
  · unfold get_server_version_info
    simp only [hv]
  · unfold get_server_version_info
    simp only [he, hv]
  · unfold get_server_version_info
    simp only [he, hee]

/-- Claim C3 (witness): the three probe scenarios at concrete
connections. -/
theorem get_server_version_info_probe_witness :
    get_server_version_info false id dbInfoPrimaryOk =
      (.ok "LI-V6.3.3.12981 Firebird 2.0", [103]) ∧
    get_server_version_info false id dbInfoFallbackOk =
      (.ok "WI-V6.3.3", [103, 12]) ∧
    get_server_version_info false id dbInfoDown =
      (.error ⟨"12", some "103"⟩, [103, 12]) :=
  ⟨(get_server_version_info_probe false id dbInfoPrimaryOk).2.1 _ rfl,
   (get_server_version_info_probe false id dbInfoFallbackOk).2.2.1 _ _ rfl rfl,
   (get_server_version_info_probe false id dbInfoDown).2.2.2 _ _ rfl rfl⟩

/-- Claim C4: the blob result processor passes a null value through,
realizes a byte-producing handle into its byte sequence, and on a
TypeError during realization closes the handle exactly once and yields
null. -/
theorem blob_process_spec :
    blob_process none = (none, 0) ∧
    (∀ data, blob_process (some ⟨.ok data⟩) = (some data, 0)) ∧
    (∀ h, h.toBytes = .error () → blob_process (some h) = (none, 1)) := by
  refine ⟨rfl, fun data => rfl, fun h hh => ?_⟩
  obtain ⟨tb⟩ := h
  have htb : tb = .error () := hh
  subst htb
  rfl

/-- Claim C4 (witness): the three blob scenarios at concrete inputs. -/
theorem blob_process_spec_witness :
    blob_process none = (none, 0) ∧
    blob_process (some ⟨.ok [104, 105]⟩) = (some [104, 105], 0) ∧
    blob_process (some ⟨.error ()⟩) = (none, 1) :=
  ⟨blob_process_spec.1, blob_process_spec.2.1 [104, 105],
   blob_process_spec.2.2 ⟨.error ()⟩ rfl⟩

/-- Claim C10: the blob result processor is idempotent on its outputs:
feeding any output (null, or a realized plain byte sequence) back through
the processor returns it unchanged. -/
theorem blob_process_idempotent (v : Option BlobHandle) :
    (blob_process (blob_output_as_value (blob_process v).1)).1 =
      (blob_process v).1 := by
  cases v with
  | none => rfl
  | some h =>
    obtain ⟨tb⟩ := h
    cases tb with
    | ok data => rfl
    | error e => rfl

/-- Claim C8: the dialect constructor defaults are `enable_rowcount=True`,
`retaining=False`, `is_interbase=False`; it stores `is_interbase` on the
instance and forwards `enable_rowcount`, `retaining`, and the remaining
keyword arguments unchanged to the base dialect constructor. -/
theorem fdb_init_spec :
    (FdbDialect.init : FdbDialect) = ⟨false, ⟨true, false, []⟩⟩ ∧
    (∀ e r i kw, FdbDialect.init e r i kw = ⟨i, ⟨e, r, kw⟩⟩) :=
  ⟨rfl, fun _ _ _ _ => rfl⟩
